import Mathlib

/-!
Shallow embedding of the to-do service core from `fastapi-app/main.py`:
the expiry predicate `is_expired`, the sort-key classifier `sort_tasks`,
the expired-only listing, and the CRUD write operations over an in-memory
task store.  Python date/datetime values are modelled by explicit calendar
structures; `date.fromisoformat` / `datetime.fromisoformat` are modelled on
the ISO formats the service reads and writes (`YYYY-MM-DD`, optionally
followed by a `T`/space separator and `HH:MM[:SS[.ffffff]]`).  The float
`timestamp()` used only as a sort key is modelled by an order-isomorphic
integer encoding `dtKey` (strictly monotone in calendar order), which is
all the sorting observes.  "Today" and "now", ambient in Python, are
explicit parameters.
-/

/-- Gregorian leap-year rule, as used by Python's `datetime.date`. -/
def isLeapYear (y : Nat) : Bool :=
  (y % 4 == 0 && y % 100 != 0) || y % 400 == 0

/-- Number of days in a month of a given year. -/
def daysInMonth (y m : Nat) : Nat :=
  if m == 2 then (if isLeapYear y then 29 else 28)
  else if m == 4 || m == 6 || m == 9 || m == 11 then 30
  else 31

/-- Calendar date (Python `datetime.date`). -/
structure Date where
  year : Nat
  month : Nat
  day : Nat
deriving Repr, DecidableEq

/-- The range and calendar validity checks `datetime.date` enforces. -/
def Date.validB (d : Date) : Bool :=
  1 ≤ d.year && d.year ≤ 9999 && 1 ≤ d.month && d.month ≤ 12 &&
  1 ≤ d.day && d.day ≤ daysInMonth d.year d.month

/-- Strict calendar order on dates (`date < date` in Python). -/
def Date.ltB (a b : Date) : Bool :=
  a.year < b.year ||
  (a.year == b.year && (a.month < b.month ||
    (a.month == b.month && a.day < b.day)))

/-- Timestamp value (Python `datetime.datetime`, naive). -/
structure DateTime where
  date : Date
  hour : Nat
  minute : Nat
  second : Nat
  micro : Nat
deriving Repr, DecidableEq

/-- `datetime.min`: 0001-01-01T00:00:00. -/
def dtMin : DateTime := ⟨⟨1, 1, 1⟩, 0, 0, 0, 0⟩

/-- `datetime.max`: 9999-12-31T23:59:59.999999. -/
def dtMax : DateTime := ⟨⟨9999, 12, 31⟩, 23, 59, 59, 999999⟩

/-- Order-isomorphic encoding of `datetime.timestamp()`: a mixed-radix
integer strictly monotone in the lexicographic calendar order of valid
datetimes (month < 16, day < 32, hour < 24, minute/second < 60,
micro < 10^6), which is the only property the sort keys use. -/
def dtKey (dt : DateTime) : Nat :=
  ((((((dt.date.year) * 16 + dt.date.month) * 32 + dt.date.day) * 24 +
    dt.hour) * 60 + dt.minute) * 60 + dt.second) * 1000000 + dt.micro

/-- Value of a decimal digit character, if it is one. -/
def digitVal (c : Char) : Option Nat :=
  if '0' ≤ c && c ≤ '9' then some (c.toNat - 48) else none

/-- Two decimal digits. -/
def twoDigits (a b : Char) : Option Nat := do
  let x ← digitVal a
  let y ← digitVal b
  pure (x * 10 + y)

/-- Four decimal digits. -/
def fourDigits (a b c d : Char) : Option Nat := do
  let x ← digitVal a
  let y ← digitVal b
  let z ← digitVal c
  let w ← digitVal d
  pure (((x * 10 + y) * 10 + z) * 10 + w)

/-- Parse exactly the ten characters `YYYY-MM-DD` as a valid calendar
date; anything else fails. -/
def parseDateChars : List Char → Option Date
  | [y1, y2, y3, y4, '-', m1, m2, '-', d1, d2] => do
    let y ← fourDigits y1 y2 y3 y4
    let m ← twoDigits m1 m2
    let d ← twoDigits d1 d2
    let date : Date := ⟨y, m, d⟩
    if date.validB then pure date else none
  | _ => none

/-- Model of Python `date.fromisoformat`: accepts `YYYY-MM-DD`. -/
def date_fromisoformat (s : String) : Option Date :=
  parseDateChars s.toList

/-- Fractional-second digits (1 to 6), scaled to microseconds. -/
def parseMicroChars (s : List Char) : Option Nat :=
  if 1 ≤ s.length && s.length ≤ 6 && s.all (fun c => '0' ≤ c && c ≤ '9') then
    some ((s.foldl (fun a c => a * 10 + (c.toNat - 48)) 0) * 10 ^ (6 - s.length))
  else
    none

/-- Parse a time-of-day `HH:MM`, `HH:MM:SS` or `HH:MM:SS.ffffff`
as (hour, minute, second, microsecond). -/
def parseTimeChars : List Char → Option (Nat × Nat × Nat × Nat)
  | [h1, h2, ':', m1, m2] => do
    let h ← twoDigits h1 h2
    let mi ← twoDigits m1 m2
    if h ≤ 23 && mi ≤ 59 then pure (h, mi, 0, 0) else none
  | [h1, h2, ':', m1, m2, ':', s1, s2] => do
    let h ← twoDigits h1 h2
    let mi ← twoDigits m1 m2
    let se ← twoDigits s1 s2
    if h ≤ 23 && mi ≤ 59 && se ≤ 59 then pure (h, mi, se, 0) else none
  | h1 :: h2 :: ':' :: m1 :: m2 :: ':' :: s1 :: s2 :: '.' :: f1 :: frest => do
    let h ← twoDigits h1 h2
    let mi ← twoDigits m1 m2
    let se ← twoDigits s1 s2
    let mic ← parseMicroChars (f1 :: frest)
    if h ≤ 23 && mi ≤ 59 && se ≤ 59 then pure (h, mi, se, mic) else none
  | _ => none

/-- Model of Python `datetime.fromisoformat`: a `YYYY-MM-DD` date,
optionally followed by a `T` or space separator and a time of day. -/
def datetime_fromisoformat (s : String) : Option DateTime :=
  match parseDateChars (s.toList.take 10) with
  | none => none
  | some d =>
    match s.toList.drop 10 with
    | [] => some ⟨d, 0, 0, 0, 0⟩
    | sep :: timeCs =>
      if sep == 'T' || sep == ' ' then
        match parseTimeChars timeCs with
        | some t => some ⟨d, t.1, t.2.1, t.2.2.1, t.2.2.2⟩
        | none => none
      else none

/-- A task record as stored (the `TodoItem` model fields; optional strings model
Python `None`-able string fields). -/
structure TodoItem where
  id : Nat
  title : String
  completed : Bool
  due_date : Option String
  tags : List String
  created_at : Option String
  completed_at : Option String
deriving Repr, DecidableEq

/-- Creation request payload (`TodoCreate`). -/
structure TodoCreate where
  title : String
  completed : Bool
  due_date : Option String
  tags : Option (List String)
deriving Repr, DecidableEq

/-- Full-replace update payload (`TodoUpdate`). -/
structure TodoUpdate where
  title : String
  completed : Bool
  due_date : Option String
  tags : Option (List String)
deriving Repr, DecidableEq

/-- Python truthiness of an optional string: `None` and `""` are falsy. -/
def optTruthy : Option String → Bool
  | none => false
  | some s => s ≠ ""

/-- `is_expired` from `main.py`: absent/empty input is not expired; a
string parsing as a calendar date is expired iff strictly before today;
a parse failure is caught and yields `false`. -/
def is_expired (today : Date) (due_date_str : Option String) : Bool :=
  match due_date_str with
  | none => false
  | some s =>
    if s = "" then false
    else
      match date_fromisoformat s with
      | some due_date => Date.ltB due_date today
      | none => false

/-- The computed `expired` field of `TodoResponse`:
`is_expired(self.due_date) if self.due_date else False`. -/
def todoResponse_expired (today : Date) (t : TodoItem) : Bool :=
  match t.due_date with
  | none => false
  | some s => if s = "" then false else is_expired today (some s)

/-- The due-date re-parse in `sort_key` buckets 2 and 3: a 10-character
value gets `"T00:00:00"` appended (start-of-day normalization) before
parsing; a parse failure (caught) yields `datetime.max`. -/
def parseDueDatetime : Option String → DateTime
  | none => dtMax
  | some s =>
    if s.length = 10 then (datetime_fromisoformat (s ++ "T00:00:00")).getD dtMax
    else (datetime_fromisoformat s).getD dtMax

/-- `sort_key` from `main.py`: rank 4 for completed tasks (key: negated
completion time, absent/empty/unparseable `completed_at` as
`datetime.min`); rank 3 for expired tasks (key: due instant); rank 2 for
tasks with a truthy, non-expired due date (key: due instant); rank 1
otherwise (key: negated creation time, absent/empty `created_at`
defaulted to the epoch string, unparseable to `datetime.min`). -/
def sort_key (today : Date) (task : TodoItem) : Nat × Int :=
  let due_date_str := task.due_date
  let expired := is_expired today due_date_str
  let has_date := optTruthy due_date_str && !expired
  if task.completed then
    let completed_time : DateTime :=
      match task.completed_at with
      | none => dtMin
      | some s => if s = "" then dtMin else (datetime_fromisoformat s).getD dtMin
    (4, -(dtKey completed_time : Int))
  else if expired then
    (3, (dtKey (parseDueDatetime due_date_str) : Int))
  else if has_date then
    (2, (dtKey (parseDueDatetime due_date_str) : Int))
  else
    let created_at_str : String :=
      match task.created_at with
      | none => "1970-01-01T00:00:00"
      | some s => if s = "" then "1970-01-01T00:00:00" else s
    let created_time := (datetime_fromisoformat created_at_str).getD dtMin
    (1, -(dtKey created_time : Int))

/-- The bucket rank a task is classified into. -/
def rank (today : Date) (task : TodoItem) : Nat := (sort_key today task).1

/-- Lexicographic comparison of sort keys, as Python compares the
`(rank, key)` tuples. -/
def keyLe (a b : Nat × Int) : Bool :=
  a.1 < b.1 || (a.1 == b.1 && a.2 ≤ b.2)

/-- `sort_tasks` from `main.py`: stable sort by `sort_key`. -/
def sort_tasks (today : Date) (tasks : List TodoItem) : List TodoItem :=
  tasks.mergeSort (fun a b => keyLe (sort_key today a) (sort_key today b))

/-- `get_expired_todos` from `main.py`: iterate the store restricted to
`completed = False`, keeping the records whose computed `expired` flag is
true. -/
def get_expired_todos (today : Date) (store : List TodoItem) : List TodoItem :=
  (store.filter (fun t => t.completed == false)).filter
    (fun t => todoResponse_expired today t)

/-- `get_next_task_id` from `main.py`: one more than the largest stored
id, or 1 when the store is empty. -/
def get_next_task_id (store : List TodoItem) : Nat :=
  (store.map (fun t => t.id)).foldr Nat.max 0 + 1

/-- `create_todo` from `main.py`: build the record (fresh id, `created_at`
set to now, `completed_at` set to `None`), insert it, return it. -/
def create_todo (store : List TodoItem) (now : String) (todo : TodoCreate) :
    List TodoItem × TodoItem :=
  let new_task : TodoItem :=
    { id := get_next_task_id store
      title := todo.title
      completed := todo.completed
      due_date := todo.due_date
      tags := todo.tags.getD []
      created_at := some now
      completed_at := none }
  (store ++ [new_task], new_task)

/-- Replace the first record with the given id by its image under `f`
(Mongo `update_one` on an id filter). -/
def updateFirst (store : List TodoItem) (tid : Nat) (f : TodoItem → TodoItem) :
    List TodoItem :=
  match store with
  | [] => []
  | t :: rest =>
    if t.id == tid then f t :: rest else t :: updateFirst rest tid f

/-- `update_todo` from `main.py`: 404 (`none`) when the id is absent;
otherwise full-replace of title/completed/due_date/tags, with
`completed_at` stamped on a false→true transition, cleared on a
true→false transition, and kept otherwise; the updated record is
re-read and returned. -/
def update_todo (store : List TodoItem) (now : String) (tid : Nat)
    (u : TodoUpdate) : List TodoItem × Option TodoItem :=
  match store.find? (fun t => t.id == tid) with
  | none => (store, none)
  | some existing_task =>
    let completed_at :=
      if u.completed && !existing_task.completed then some now
      else if !u.completed && existing_task.completed then none
      else existing_task.completed_at
    let store2 := updateFirst store tid (fun t =>
      { t with
          title := u.title
          completed := u.completed
          due_date := u.due_date
          tags := u.tags.getD []
          completed_at := completed_at })
    (store2, store2.find? (fun t => t.id == tid))

/-- `toggle_todo_completion` from `main.py`: 404 (`none`) when the id is
absent; otherwise flip `completed`, stamping `completed_at` with now when
the task becomes completed and clearing it otherwise; the updated record
is re-read and returned. -/
def toggle_todo_completion (store : List TodoItem) (now : String) (tid : Nat) :
    List TodoItem × Option TodoItem :=
  match store.find? (fun t => t.id == tid) with
  | none => (store, none)
  | some task =>
    let new_completed_status := !task.completed
    let store2 := updateFirst store tid (fun t =>
      { t with
          completed := new_completed_status
          completed_at :=
            if new_completed_status then some now else none })
    (store2, store2.find? (fun t => t.id == tid))

/-- `delete_todo` from `main.py`: `delete_one` removes the first record
with the given id; a zero deleted count is reported as 404 (`none`). -/
def delete_todo (store : List TodoItem) (tid : Nat) : List TodoItem × Option String :=
  let new_store := store.eraseP (fun t => t.id == tid)
  let deleted_count : Nat := if store.any (fun t => t.id == tid) then 1 else 0
  if deleted_count == 0 then (new_store, none)
  else (new_store, some "To-Do item deleted")

/-- Spec-side within-bucket instant for the "done" bucket, following the
spec's words: the completion instant is the parsed `completed_at`, and an
absent or unparseable `completed_at` counts as the earliest possible
instant. -/
def specCompletedInstant (completed_at : Option String) : Nat :=
  match completed_at with
  | none => dtKey dtMin
  | some s =>
    match datetime_fromisoformat s with
    | some dt => dtKey dt
    | none => dtKey dtMin

/-- Spec-side within-bucket instant for the dated buckets, following the
spec's words: a date-only due value is normalized to start-of-day, a
datetime value is taken as is, and an unparseable due date counts as the
latest possible instant. -/
def specDueInstant (due_date : Option String) : Nat :=
  match due_date with
  | none => dtKey dtMax
  | some s =>
    match date_fromisoformat s with
    | some d => dtKey ⟨d, 0, 0, 0, 0⟩
    | none =>
      match datetime_fromisoformat s with
      | some dt => dtKey dt
      | none => dtKey dtMax

/-- Spec-side within-bucket instant for bucket 1, following the spec's
words: the creation instant is the parsed `created_at`, and an absent or
unparseable `created_at` counts as the earliest possible instant. -/
def specCreatedInstant (created_at : Option String) : Nat :=
  match created_at with
  | none => dtKey dtMin
  | some s =>
    match datetime_fromisoformat s with
    | some dt => dtKey dt
    | none => dtKey dtMin

/-- The creation instant bucket 1 actually orders by: an absent or empty
`created_at` is defaulted to the Unix epoch string before parsing, and
only a present unparseable value falls back to the earliest instant. -/
def codeCreatedInstant (created_at : Option String) : Nat :=
  let created_at_str : String :=
    match created_at with
    | none => "1970-01-01T00:00:00"
    | some s => if s = "" then "1970-01-01T00:00:00" else s
  dtKey ((datetime_fromisoformat created_at_str).getD dtMin)


theorem toList_append (s t : String) :
    (s ++ t).toList = s.toList ++ t.toList := by
  simp [String.toList]

theorem string_length_toList (s : String) : s.length = s.toList.length := rfl

theorem parseDateChars_some_length (l : List Char) (d : Date)
    (h : parseDateChars l = some d) : l.length = 10 := by
  unfold parseDateChars at h
  split at h
  · simp
  · simp at h

theorem datetime_fromisoformat_empty : datetime_fromisoformat "" = none := rfl

theorem datetime_fromisoformat_append_T00 (s : String) (h : s.length = 10) :
    datetime_fromisoformat (s ++ "T00:00:00") =
      (parseDateChars s.toList).map
        (fun d => (⟨d, 0, 0, 0, 0⟩ : DateTime)) := by
  have hlen : s.toList.length = 10 := h
  unfold datetime_fromisoformat
  rw [toList_append]
  have ht : "T00:00:00".toList =
      ['T', '0', '0', ':', '0', '0', ':', '0', '0'] := rfl
  rw [ht, List.take_left' hlen, List.drop_left' hlen]
  cases parseDateChars s.toList with
  | none => rfl
  | some d => rfl

theorem datetime_fromisoformat_of_length_ten (s : String) (h : s.length = 10) :
    datetime_fromisoformat s =
      (parseDateChars s.toList).map
        (fun d => (⟨d, 0, 0, 0, 0⟩ : DateTime)) := by
  have hlen : s.toList.length = 10 := h
  unfold datetime_fromisoformat
  rw [show s.toList.take 10 = s.toList from hlen ▸ List.take_length s.toList]
  rw [show s.toList.drop 10 = [] from
    hlen ▸ List.drop_length s.toList]
  cases parseDateChars s.toList with
  | none => rfl
  | some d => rfl

theorem dtKey_parseDueDatetime (due : Option String) :
    dtKey (parseDueDatetime due) = specDueInstant due := by
  cases due with
  | none => rfl
  | some s =>
    simp only [parseDueDatetime, specDueInstant, date_fromisoformat]
    by_cases hl : s.length = 10
    · rw [if_pos hl, datetime_fromisoformat_append_T00 s hl,
        datetime_fromisoformat_of_length_ten s hl]
      cases hp : parseDateChars s.toList with
      | none => rfl
      | some d => rfl
    · rw [if_neg hl]
      cases hp : parseDateChars s.toList with
      | none =>
        cases hq : datetime_fromisoformat s with
        | none => rfl
        | some dt => rfl
      | some d =>
        have hten : s.length = 10 := by
          rw [string_length_toList]
          exact parseDateChars_some_length _ _ hp
        exact absurd hten hl

theorem rank_eq (today : Date) (t : TodoItem) :
    rank today t =
      if t.completed then 4
      else if is_expired today t.due_date then 3
      else if optTruthy t.due_date then 2
      else 1 := by
  unfold rank sort_key
  by_cases hc : t.completed
  · simp [hc]
  · by_cases he : is_expired today t.due_date
    · simp [hc, he]
    · by_cases hd : optTruthy t.due_date
      · simp [hc, he, hd]
      · simp [hc, he, hd]

theorem sort_key_completed_eq (today : Date) (t : TodoItem)
    (hc : t.completed = true) :
    sort_key today t = (4, -(specCompletedInstant t.completed_at : Int)) := by
  unfold sort_key specCompletedInstant
  cases h : t.completed_at with
  | none => simp [hc]
  | some s =>
    by_cases hs : s = ""
    · subst hs
      simp [hc, datetime_fromisoformat_empty]
    · cases hp : datetime_fromisoformat s with
      | none => simp [hc, hs, hp]
      | some dt => simp [hc, hs, hp]

theorem sort_key_overdue_eq (today : Date) (t : TodoItem)
    (hc : t.completed = false) (he : is_expired today t.due_date = true) :
    sort_key today t = (3, (specDueInstant t.due_date : Int)) := by
  unfold sort_key
  simp [hc, he, dtKey_parseDueDatetime]

theorem sort_key_upcoming_eq (today : Date) (t : TodoItem)
    (hc : t.completed = false) (he : is_expired today t.due_date = false)
    (hd : optTruthy t.due_date = true) :
    sort_key today t = (2, (specDueInstant t.due_date : Int)) := by
  unfold sort_key
  simp [hc, he, hd, dtKey_parseDueDatetime]

theorem sort_key_undated_eq (today : Date) (t : TodoItem)
    (hc : t.completed = false) (he : is_expired today t.due_date = false)
    (hd : optTruthy t.due_date = false) :
    sort_key today t = (1, -(codeCreatedInstant t.created_at : Int)) := by
  unfold sort_key codeCreatedInstant
  cases h : t.created_at with
  | none => simp [hc, he, hd]
  | some s =>
    by_cases hs : s = ""
    · subst hs; simp [hc, he, hd]
    · simp [hc, he, hd, hs]

theorem keyLe_total (a b : Nat × Int) :
    keyLe a b = true ∨ keyLe b a = true := by
  rcases a with ⟨a1, a2⟩
  rcases b with ⟨b1, b2⟩
  simp [keyLe]
  omega

theorem keyLe_trans (a b c : Nat × Int)
    (h1 : keyLe a b = true) (h2 : keyLe b c = true) : keyLe a c = true := by
  rcases a with ⟨a1, a2⟩
  rcases b with ⟨b1, b2⟩
  rcases c with ⟨c1, c2⟩
  simp [keyLe] at h1 h2 ⊢
  omega

theorem keyLe_rank_le (a b : Nat × Int) (h : keyLe a b = true) :
    a.1 ≤ b.1 := by
  rcases a with ⟨a1, a2⟩
  rcases b with ⟨b1, b2⟩
  simp [keyLe] at h
  omega

theorem sort_tasks_perm (today : Date) (tasks : List TodoItem) :
    (sort_tasks today tasks).Perm tasks :=
  List.mergeSort_perm tasks _

theorem sort_tasks_pairwise (today : Date) (tasks : List TodoItem) :
    (sort_tasks today tasks).Pairwise
      (fun a b => keyLe (sort_key today a) (sort_key today b) = true) := by
  unfold sort_tasks
  exact @List.sorted_mergeSort TodoItem
    (fun a b => keyLe (sort_key today a) (sort_key today b))
    (fun a b c hab hbc => keyLe_trans _ _ _ hab hbc)
    (fun a b => by
      rcases keyLe_total (sort_key today a) (sort_key today b) with h | h <;>
        simp [h])
    tasks

theorem find?_updateFirst (store : List TodoItem) (tid : Nat)
    (f : TodoItem → TodoItem) (hf : ∀ x, (f x).id = x.id) :
    (updateFirst store tid f).find? (fun t => t.id == tid) =
      (store.find? (fun t => t.id == tid)).map f := by
  induction store with
  | nil => rfl
  | cons t rest ih =>
    by_cases h : t.id = tid
    · have hp : (t.id == tid) = true := by simp [h]
      have hp2 : ((f t).id == tid) = true := by simp [hf, h]
      unfold updateFirst
      rw [if_pos hp,
        @List.find?_cons_of_pos _ (fun x => x.id == tid) (f t) rest hp2,
        @List.find?_cons_of_pos _ (fun x => x.id == tid) t rest hp]
      rfl
    · have hneg : ¬((t.id == tid) = true) := by simp [h]
      unfold updateFirst
      rw [if_neg hneg,
        @List.find?_cons_of_neg _ (fun x => x.id == tid) t
          (updateFirst rest tid f) hneg,
        @List.find?_cons_of_neg _ (fun x => x.id == tid) t rest hneg, ih]

theorem todoResponse_expired_eq (today : Date) (t : TodoItem) :
    todoResponse_expired today t = is_expired today t.due_date := by
  unfold todoResponse_expired is_expired
  cases t.due_date with
  | none => rfl
  | some s => by_cases hs : s = "" <;> simp [hs]

theorem sort_key_dated_eq (today : Date) (t : TodoItem)
    (h : rank today t = 2 ∨ rank today t = 3) :
    sort_key today t = (rank today t, (specDueInstant t.due_date : Int)) := by
  have hr := rank_eq today t
  by_cases hc : t.completed = true
  · rw [if_pos hc] at hr
    omega
  · have hc' : t.completed = false := by simpa using hc
    rw [if_neg hc] at hr
    by_cases he : is_expired today t.due_date = true
    · rw [if_pos he] at hr
      rw [sort_key_overdue_eq today t hc' he, hr]
    · have he' : is_expired today t.due_date = false := by simpa using he
      rw [if_neg he] at hr
      by_cases hd : optTruthy t.due_date = true
      · rw [if_pos hd] at hr
        rw [sort_key_upcoming_eq today t hc' he' hd, hr]
      · rw [if_neg hd] at hr
        omega

theorem sort_key_rank_one (today : Date) (t : TodoItem)
    (h : rank today t = 1) :
    sort_key today t = (1, -(codeCreatedInstant t.created_at : Int)) := by
  have hr := rank_eq today t
  by_cases hc : t.completed = true
  · rw [if_pos hc] at hr
    omega
  · have hc' : t.completed = false := by simpa using hc
    rw [if_neg hc] at hr
    by_cases he : is_expired today t.due_date = true
    · rw [if_pos he] at hr
      omega
    · have he' : is_expired today t.due_date = false := by simpa using he
      rw [if_neg he] at hr
      by_cases hd : optTruthy t.due_date = true
      · rw [if_pos hd] at hr
        omega
      · have hd' : optTruthy t.due_date = false := by simpa using hd
        exact sort_key_undated_eq today t hc' he' hd'

/-- C1: `sort_tasks` assigns every task exactly one of four ranks, first
match wins — completed tasks get rank 4 regardless of due date or expiry,
otherwise expired tasks get rank 3, otherwise tasks with a present
non-expired due date get rank 2, and every remaining task gets rank 1 —
and the output is a permutation of the input ordered by rank ascending
and then by the within-bucket key. -/
theorem claim_C1_sort_buckets_total_order (today : Date)
    (tasks : List TodoItem) (t : TodoItem) :
    (rank today t =
      if t.completed then 4
      else if is_expired today t.due_date then 3
      else if optTruthy t.due_date then 2
      else 1)
    ∧ (sort_tasks today tasks).Perm tasks
    ∧ (sort_tasks today tasks).Pairwise
        (fun a b => keyLe (sort_key today a) (sort_key today b) = true)
    ∧ (sort_tasks today tasks).Pairwise
        (fun a b => rank today a ≤ rank today b) :=
  ⟨rank_eq today t, sort_tasks_perm today tasks,
    sort_tasks_pairwise today tasks,
    (sort_tasks_pairwise today tasks).imp (fun h => keyLe_rank_le _ _ h)⟩

/-- C3: `is_expired` is true exactly when the input is a string parsing
as a valid calendar date strictly earlier than today; absent, empty and
malformed inputs yield `false`.  The function is total (never raises)
and depends only on the input string and the current date. -/
theorem claim_C3_is_expired_iff (today : Date) (due : Option String) :
    (is_expired today due = true ↔
      ∃ s d, due = some s ∧ date_fromisoformat s = some d ∧
        Date.ltB d today = true)
    ∧ is_expired today none = false
    ∧ is_expired today (some "") = false := by
  refine ⟨?_, rfl, rfl⟩
  cases due with
  | none => simp [is_expired]
  | some s =>
    by_cases hs : s = ""
    · subst hs
      simp [is_expired, show date_fromisoformat "" = none from rfl]
    · cases hp : date_fromisoformat s with
      | none => simp [is_expired, hs, hp]
      | some d => simp [is_expired, hs, hp]

/-- C7: the expired-only listing contains exactly the tasks that are not
completed and whose due date satisfies the expiry predicate, and every
returned record carries a true computed `expired` flag. -/
theorem claim_C7_expired_listing (today : Date) (store : List TodoItem)
    (t : TodoItem) :
    (t ∈ get_expired_todos today store ↔
      t ∈ store ∧ t.completed = false ∧ is_expired today t.due_date = true)
    ∧ (∀ u ∈ get_expired_todos today store,
        todoResponse_expired today u = true) := by
  constructor
  · unfold get_expired_todos
    simp only [List.mem_filter, todoResponse_expired_eq]
    constructor
    · rintro ⟨⟨hm, hc⟩, he⟩
      exact ⟨hm, by simpa using hc, he⟩
    · rintro ⟨hm, hc, he⟩
      exact ⟨⟨hm, by simp [hc]⟩, he⟩
  · intro u hu
    unfold get_expired_todos at hu
    exact (List.mem_filter.mp hu).2

/-- C10 counterexample: a completed task whose `due_date` is the empty
string is placed in bucket 4, not bucket 1, so "sort_tasks places the
task in bucket 1" fails for it. -/
theorem claim_C10_counterexample :
    (⟨1, "done", true, some "", [], none, none⟩ : TodoItem).due_date = some ""
    ∧ rank ⟨2024, 1, 1⟩ ⟨1, "done", true, some "", [], none, none⟩ ≠ 1 := by
  constructor
  · rfl
  · decide

/-- C10 (amended): a task whose `due_date` is the empty string behaves
exactly as if the due date were absent — `is_expired` is false, the
computed `expired` flag is false, and its sort key equals that of the
same task with no due date; in particular a non-completed such task is
placed in bucket 1. -/
theorem claim_C10_empty_due_date (today : Date) (t : TodoItem)
    (h : t.due_date = some "") :
    is_expired today t.due_date = false
    ∧ sort_key today t = sort_key today { t with due_date := none }
    ∧ todoResponse_expired today t = false
    ∧ (t.completed = false → rank today t = 1) := by
  refine ⟨by simp [is_expired, h], ?_, by simp [todoResponse_expired, h], ?_⟩
  · unfold sort_key
    simp [h, is_expired, optTruthy]
  · intro hc
    rw [rank_eq]
    simp [hc, is_expired, h, optTruthy]

/-- C10 witness: the amended statement at a concrete undated-by-empty-string
task. -/
theorem claim_C10_witness :
    (⟨7, "w", false, some "", [], some "2024-01-01T00:00:00", none⟩ :
        TodoItem).due_date = some ""
    ∧ (is_expired ⟨2024, 6, 1⟩
          (⟨7, "w", false, some "", [], some "2024-01-01T00:00:00", none⟩ :
            TodoItem).due_date = false
      ∧ sort_key ⟨2024, 6, 1⟩
          (⟨7, "w", false, some "", [], some "2024-01-01T00:00:00", none⟩ :
            TodoItem) =
        sort_key ⟨2024, 6, 1⟩
          { (⟨7, "w", false, some "", [], some "2024-01-01T00:00:00", none⟩ :
              TodoItem) with due_date := none }
      ∧ todoResponse_expired ⟨2024, 6, 1⟩
          (⟨7, "w", false, some "", [], some "2024-01-01T00:00:00", none⟩ :
            TodoItem) = false
      ∧ ((⟨7, "w", false, some "", [], some "2024-01-01T00:00:00", none⟩ :
            TodoItem).completed = false →
          rank ⟨2024, 6, 1⟩
            (⟨7, "w", false, some "", [], some "2024-01-01T00:00:00", none⟩ :
              TodoItem) = 1)) :=
  ⟨rfl, claim_C10_empty_due_date ⟨2024, 6, 1⟩ _ rfl⟩

/-- C2 counterexample: in bucket 1 an absent `created_at` does not sort
as the earliest possible instant — the code defaults it to the Unix epoch
1970-01-01T00:00:00.  Task `a` (absent `created_at`) is ordered strictly
before task `b` (created 1969-06-01), although `b`'s creation instant is
strictly later than the earliest possible instant the claim assigns to
`a`, so created-at-descending as claimed would place `b` first. -/
theorem claim_C2_counterexample :
    rank ⟨2024, 1, 1⟩ ⟨1, "a", false, none, [], none, none⟩ = 1
    ∧ rank ⟨2024, 1, 1⟩
        ⟨2, "b", false, none, [], some "1969-06-01T00:00:00", none⟩ = 1
    ∧ specCreatedInstant (none : Option String) <
        specCreatedInstant (some "1969-06-01T00:00:00")
    ∧ keyLe (sort_key ⟨2024, 1, 1⟩ ⟨1, "a", false, none, [], none, none⟩)
        (sort_key ⟨2024, 1, 1⟩
          ⟨2, "b", false, none, [], some "1969-06-01T00:00:00", none⟩) = true
    ∧ keyLe (sort_key ⟨2024, 1, 1⟩
          ⟨2, "b", false, none, [], some "1969-06-01T00:00:00", none⟩)
        (sort_key ⟨2024, 1, 1⟩ ⟨1, "a", false, none, [], none, none⟩)
        = false := by
  refine ⟨by decide, by decide, by decide, by decide, by decide⟩

/-- C2 (amended): within bucket 4 the order is by completion instant
descending with absent/unparseable `completed_at` as the earliest
instant; within buckets 2 and 3 by due instant ascending with date-only
values normalized to start-of-day and unparseable due dates as the
latest instant; within bucket 1 by creation instant descending, where an
absent or empty `created_at` is treated as the Unix epoch
(1970-01-01T00:00:00) and a present unparseable one as the earliest
instant. -/
theorem claim_C2_within_bucket_keys (today : Date) (a b : TodoItem) :
    (a.completed = true → b.completed = true →
      (keyLe (sort_key today a) (sort_key today b) = true ↔
        specCompletedInstant b.completed_at ≤
          specCompletedInstant a.completed_at))
    ∧ (rank today a = rank today b → (rank today a = 2 ∨ rank today a = 3) →
      (keyLe (sort_key today a) (sort_key today b) = true ↔
        specDueInstant a.due_date ≤ specDueInstant b.due_date))
    ∧ (rank today a = 1 → rank today b = 1 →
      (keyLe (sort_key today a) (sort_key today b) = true ↔
        codeCreatedInstant b.created_at ≤ codeCreatedInstant a.created_at)) := by
  refine ⟨?_, ?_, ?_⟩
  · intro ha hb
    rw [sort_key_completed_eq today a ha, sort_key_completed_eq today b hb]
    simp [keyLe]
  · intro hrab hr23
    have ha := sort_key_dated_eq today a hr23
    have hb := sort_key_dated_eq today b (by rw [← hrab]; exact hr23)
    rw [ha, hb, hrab]
    simp [keyLe]
  · intro ha hb
    rw [sort_key_rank_one today a ha, sort_key_rank_one today b hb]
    simp [keyLe]

/-- C2 witness: the amended within-bucket orderings at concrete tasks in
each bucket. -/
theorem claim_C2_witness :
    ((⟨1, "p", true, none, [], none, some "2024-05-01T10:00:00"⟩ :
        TodoItem).completed = true
      ∧ (⟨2, "q", true, none, [], none, some "2024-04-01T10:00:00"⟩ :
        TodoItem).completed = true)
    ∧ (keyLe
        (sort_key ⟨2024, 6, 1⟩
          ⟨1, "p", true, none, [], none, some "2024-05-01T10:00:00"⟩)
        (sort_key ⟨2024, 6, 1⟩
          ⟨2, "q", true, none, [], none, some "2024-04-01T10:00:00"⟩) = true ↔
      specCompletedInstant
          (⟨2, "q", true, none, [], none, some "2024-04-01T10:00:00"⟩ :
            TodoItem).completed_at ≤
        specCompletedInstant
          (⟨1, "p", true, none, [], none, some "2024-05-01T10:00:00"⟩ :
            TodoItem).completed_at) :=
  ⟨⟨rfl, rfl⟩,
    (claim_C2_within_bucket_keys ⟨2024, 6, 1⟩ _ _).1 rfl rfl⟩

/-- C4: on any malformed date string the core computations complete with
the documented fallbacks instead of raising — `is_expired` and the
computed `expired` flag are false, the sort key falls back to
`datetime.max` (due dates) or `datetime.min` (timestamps), and
`sort_tasks` still returns a permutation of any input collection. -/
theorem claim_C4_malformed_no_raise (today : Date) (tasks : List TodoItem)
    (t : TodoItem) (s : String) (hs : s ≠ "")
    (hd : date_fromisoformat s = none)
    (hdt : datetime_fromisoformat s = none) :
    is_expired today (some s) = false
    ∧ todoResponse_expired today { t with due_date := some s } = false
    ∧ (t.completed = false →
        sort_key today { t with due_date := some s } =
          (2, (dtKey dtMax : Int)))
    ∧ (t.completed = true →
        sort_key today { t with completed_at := some s } =
          (4, -(dtKey dtMin : Int)))
    ∧ (t.completed = false → t.due_date = none →
        sort_key today { t with created_at := some s } =
          (1, -(dtKey dtMin : Int)))
    ∧ (sort_tasks today tasks).Perm tasks := by
  have hexp : is_expired today (some s) = false := by
    simp [is_expired, hs, hd]
  refine ⟨hexp, ?_, ?_, ?_, ?_, sort_tasks_perm today tasks⟩
  · simp [todoResponse_expired, is_expired, hs, hd]
  · intro hc
    have h2 := sort_key_upcoming_eq today { t with due_date := some s }
      (by simpa using hc) (by simpa using hexp) (by simp [optTruthy, hs])
    rw [h2]
    simp [specDueInstant, hd, hdt]
  · intro hc
    have h4 := sort_key_completed_eq today { t with completed_at := some s }
      (by simpa using hc)
    rw [h4]
    simp [specCompletedInstant, hdt]
  · intro hc hdue
    have h1 := sort_key_undated_eq today { t with created_at := some s }
      (by simpa using hc) (by simp [is_expired, hdue])
      (by simp [optTruthy, hdue])
    rw [h1]
    simp [codeCreatedInstant, hs, hdt]

/-- C4 witness: the fallback behavior at the concrete garbage date
string "9999-99-99". -/
theorem claim_C4_witness :
    ("9999-99-99" ≠ "" ∧ date_fromisoformat "9999-99-99" = none
      ∧ datetime_fromisoformat "9999-99-99" = none)
    ∧ (is_expired ⟨2024, 1, 1⟩ (some "9999-99-99") = false
      ∧ todoResponse_expired ⟨2024, 1, 1⟩
          { (⟨1, "g", false, none, [], none, none⟩ : TodoItem) with
              due_date := some "9999-99-99" } = false
      ∧ ((⟨1, "g", false, none, [], none, none⟩ : TodoItem).completed = false →
          sort_key ⟨2024, 1, 1⟩
            { (⟨1, "g", false, none, [], none, none⟩ : TodoItem) with
                due_date := some "9999-99-99" } = (2, (dtKey dtMax : Int)))
      ∧ ((⟨1, "g", false, none, [], none, none⟩ : TodoItem).completed = true →
          sort_key ⟨2024, 1, 1⟩
            { (⟨1, "g", false, none, [], none, none⟩ : TodoItem) with
                completed_at := some "9999-99-99" } = (4, -(dtKey dtMin : Int)))
      ∧ ((⟨1, "g", false, none, [], none, none⟩ : TodoItem).completed = false →
          (⟨1, "g", false, none, [], none, none⟩ : TodoItem).due_date = none →
          sort_key ⟨2024, 1, 1⟩
            { (⟨1, "g", false, none, [], none, none⟩ : TodoItem) with
                created_at := some "9999-99-99" } = (1, -(dtKey dtMin : Int)))
      ∧ (sort_tasks ⟨2024, 1, 1⟩
          [(⟨1, "g", false, none, [], none, none⟩ : TodoItem)]).Perm
            [(⟨1, "g", false, none, [], none, none⟩ : TodoItem)]) :=
  ⟨⟨by decide, by decide, by decide⟩,
    claim_C4_malformed_no_raise ⟨2024, 1, 1⟩ _ _ "9999-99-99"
      (by decide) (by decide) (by decide)⟩

/-- C6: a completed task whose due date parses and lies strictly before
today is classified in the "done" bucket (rank 4, never rank 3) and its
sort key is strictly after every task of ranks 1–3, while its computed
`expired` flag is still true. -/
theorem claim_C6_completed_expired_done (today : Date) (t : TodoItem)
    (s : String) (d : Date) (hc : t.completed = true)
    (hdue : t.due_date = some s) (hp : date_fromisoformat s = some d)
    (hlt : Date.ltB d today = true) :
    rank today t = 4
    ∧ rank today t ≠ 3
    ∧ todoResponse_expired today t = true
    ∧ ∀ u : TodoItem, rank today u ≤ 3 →
        keyLe (sort_key today u) (sort_key today t) = true
        ∧ keyLe (sort_key today t) (sort_key today u) = false := by
  have hs : s ≠ "" := by
    intro h
    subst h
    rw [show date_fromisoformat "" = none from rfl] at hp
    cases hp
  have hr4 : rank today t = 4 := by
    rw [rank_eq]
    simp [hc]
  refine ⟨hr4, by omega, ?_, ?_⟩
  · simp [todoResponse_expired, hdue, hs, is_expired, hp, hlt]
  · intro u hu
    have ht1 : (sort_key today t).1 = 4 := hr4
    have hu1 : (sort_key today u).1 ≤ 3 := hu
    unfold keyLe
    constructor
    · simp
      omega
    · simp
      omega

/-- C6 witness: a concrete completed task due 2020-01-01 evaluated
against today 2024-06-01. -/
theorem claim_C6_witness :
    ((⟨3, "ce", true, some "2020-01-01", [], none, none⟩ :
        TodoItem).completed = true
      ∧ (⟨3, "ce", true, some "2020-01-01", [], none, none⟩ :
        TodoItem).due_date = some "2020-01-01"
      ∧ date_fromisoformat "2020-01-01" = some ⟨2020, 1, 1⟩
      ∧ Date.ltB ⟨2020, 1, 1⟩ ⟨2024, 6, 1⟩ = true)
    ∧ (rank ⟨2024, 6, 1⟩
        (⟨3, "ce", true, some "2020-01-01", [], none, none⟩ : TodoItem) = 4
      ∧ rank ⟨2024, 6, 1⟩
          (⟨3, "ce", true, some "2020-01-01", [], none, none⟩ : TodoItem) ≠ 3
      ∧ todoResponse_expired ⟨2024, 6, 1⟩
          (⟨3, "ce", true, some "2020-01-01", [], none, none⟩ : TodoItem)
            = true
      ∧ ∀ u : TodoItem, rank ⟨2024, 6, 1⟩ u ≤ 3 →
          keyLe (sort_key ⟨2024, 6, 1⟩ u)
            (sort_key ⟨2024, 6, 1⟩
              (⟨3, "ce", true, some "2020-01-01", [], none, none⟩ :
                TodoItem)) = true
          ∧ keyLe
              (sort_key ⟨2024, 6, 1⟩
                (⟨3, "ce", true, some "2020-01-01", [], none, none⟩ :
                  TodoItem))
              (sort_key ⟨2024, 6, 1⟩ u) = false) :=
  ⟨⟨rfl, rfl, by decide, by decide⟩,
    claim_C6_completed_expired_done ⟨2024, 6, 1⟩ _ "2020-01-01" ⟨2020, 1, 1⟩
      rfl rfl (by decide) (by decide)⟩

theorem toggle_todo_completion_eq (store : List TodoItem) (now : String)
    (tid : Nat) (task : TodoItem)
    (h : store.find? (fun x => x.id == tid) = some task) :
    toggle_todo_completion store now tid =
      (updateFirst store tid (fun t =>
          { t with
              completed := !task.completed
              completed_at := if !task.completed then some now else none }),
        some { task with
                completed := !task.completed
                completed_at := if !task.completed then some now else none }) := by
  unfold toggle_todo_completion
  rw [h]
  show (updateFirst store tid _,
    (updateFirst store tid _).find? (fun x => x.id == tid)) = _
  rw [find?_updateFirst store tid (fun t =>
      { t with
          completed := !task.completed
          completed_at := if !task.completed then some now else none })
    (fun x => rfl), h]
  rfl

theorem update_todo_eq (store : List TodoItem) (now : String) (tid : Nat)
    (u : TodoUpdate) (task : TodoItem)
    (h : store.find? (fun x => x.id == tid) = some task) :
    update_todo store now tid u =
      (updateFirst store tid (fun t =>
          { t with
              title := u.title
              completed := u.completed
              due_date := u.due_date
              tags := u.tags.getD []
              completed_at :=
                if u.completed && !task.completed then some now
                else if !u.completed && task.completed then none
                else task.completed_at }),
        some { task with
                title := u.title
                completed := u.completed
                due_date := u.due_date
                tags := u.tags.getD []
                completed_at :=
                  if u.completed && !task.completed then some now
                  else if !u.completed && task.completed then none
                  else task.completed_at }) := by
  unfold update_todo
  rw [h]
  show (updateFirst store tid _,
    (updateFirst store tid _).find? (fun x => x.id == tid)) = _
  rw [find?_updateFirst store tid (fun t =>
      { t with
          title := u.title
          completed := u.completed
          due_date := u.due_date
          tags := u.tags.getD []
          completed_at :=
            if u.completed && !task.completed then some now
            else if !u.completed && task.completed then none
            else task.completed_at })
    (fun x => rfl), h]
  rfl

/-- C5 counterexample: creating a task with `completed = true` yields a
record with `completed = true` but `completed_at` absent —
`create_todo` sets `completed_at` to `None` unconditionally — so the
claimed equivalence fails right after that write. -/
theorem claim_C5_counterexample :
    (create_todo [] "2024-01-01T00:00:00"
        ⟨"t", true, none, none⟩).2.completed = true
    ∧ (create_todo [] "2024-01-01T00:00:00"
        ⟨"t", true, none, none⟩).2.completed_at = none := by
  constructor
  · rfl
  · rfl

/-- C5 (amended): the completion toggle always re-establishes
`completed_at present ⟺ completed`; the full-replace update preserves
the equivalence whenever the pre-existing record satisfied it; creation
always stores `completed_at` as absent, so the created record satisfies
the equivalence exactly when the request has `completed = false` (a
creation request with `completed = true` violates it). -/
theorem claim_C5_completed_at_invariant (store : List TodoItem)
    (now : String) (tid : Nat) (u : TodoUpdate) (c : TodoCreate)
    (t0 : TodoItem) :
    ((create_todo store now c).2.completed_at = none
      ∧ (c.completed = false →
          (create_todo store now c).2.completed_at.isSome =
            (create_todo store now c).2.completed))
    ∧ (∀ r, (toggle_todo_completion store now tid).2 = some r →
        r.completed_at.isSome = r.completed)
    ∧ (store.find? (fun x => x.id == tid) = some t0 →
        t0.completed_at.isSome = t0.completed →
        ∀ r, (update_todo store now tid u).2 = some r →
          r.completed_at.isSome = r.completed) := by
  refine ⟨⟨rfl, ?_⟩, ?_, ?_⟩
  · intro h
    simp [create_todo, h]
  · intro r hr
    cases hfind : store.find? (fun x => x.id == tid) with
    | none =>
      unfold toggle_todo_completion at hr
      rw [hfind] at hr
      exact absurd hr (by simp)
    | some task =>
      rw [toggle_todo_completion_eq store now tid task hfind] at hr
      simp only [Option.some.injEq] at hr
      cases hc : task.completed <;> simp [← hr, hc]
  · intro hfind hinv r hr
    rw [update_todo_eq store now tid u t0 hfind] at hr
    simp only [Option.some.injEq] at hr
    cases uc : u.completed <;> cases tc : t0.completed <;>
      simp [← hr, uc, tc, tc ▸ hinv]

/-- C5 witness: the amended statement at a concrete one-task store. -/
theorem claim_C5_witness :
    ([(⟨5, "x", true, none, [], none,
        some "2024-01-01T00:00:00"⟩ : TodoItem)].find?
          (fun x => x.id == 5) =
        some ⟨5, "x", true, none, [], none, some "2024-01-01T00:00:00"⟩
      ∧ (⟨5, "x", true, none, [], none, some "2024-01-01T00:00:00"⟩ :
          TodoItem).completed_at.isSome =
        (⟨5, "x", true, none, [], none, some "2024-01-01T00:00:00"⟩ :
          TodoItem).completed
      ∧ (⟨"y", false, none, none⟩ : TodoCreate).completed = false)
    ∧ ((create_todo
          [(⟨5, "x", true, none, [], none,
            some "2024-01-01T00:00:00"⟩ : TodoItem)]
          "2024-02-02T00:00:00" ⟨"y", false, none, none⟩).2.completed_at
        = none)
    ∧ (∀ r, (toggle_todo_completion
          [(⟨5, "x", true, none, [], none,
            some "2024-01-01T00:00:00"⟩ : TodoItem)]
          "2024-02-02T00:00:00" 5).2 = some r →
        r.completed_at.isSome = r.completed)
    ∧ (∀ r, (update_todo
          [(⟨5, "x", true, none, [], none,
            some "2024-01-01T00:00:00"⟩ : TodoItem)]
          "2024-02-02T00:00:00" 5 ⟨"z", false, none, none⟩).2 = some r →
        r.completed_at.isSome = r.completed) :=
  ⟨⟨by decide, by decide, by decide⟩,
    (claim_C5_completed_at_invariant
      [(⟨5, "x", true, none, [], none,
        some "2024-01-01T00:00:00"⟩ : TodoItem)] "2024-02-02T00:00:00" 5
      ⟨"z", false, none, none⟩ ⟨"y", false, none, none⟩
      ⟨5, "x", true, none, [], none,
        some "2024-01-01T00:00:00"⟩).1.1,
    (claim_C5_completed_at_invariant
      [(⟨5, "x", true, none, [], none,
        some "2024-01-01T00:00:00"⟩ : TodoItem)] "2024-02-02T00:00:00" 5
      ⟨"z", false, none, none⟩ ⟨"y", false, none, none⟩
      ⟨5, "x", true, none, [], none,
        some "2024-01-01T00:00:00"⟩).2.1,
    (claim_C5_completed_at_invariant
      [(⟨5, "x", true, none, [], none,
        some "2024-01-01T00:00:00"⟩ : TodoItem)] "2024-02-02T00:00:00" 5
      ⟨"z", false, none, none⟩ ⟨"y", false, none, none⟩
      ⟨5, "x", true, none, [], none,
        some "2024-01-01T00:00:00"⟩).2.2
      (by decide) (by decide)⟩

/-- C8: toggling completion twice returns a task whose `completed` flag
and every non-completion field (id, title, due date, tags, created_at)
equal the pre-toggle values; only `completed_at` may differ (it is
re-stamped). -/
theorem claim_C8_toggle_twice_identity (store : List TodoItem)
    (now1 now2 : String) (tid : Nat) (t : TodoItem)
    (h : store.find? (fun x => x.id == tid) = some t) :
    ∃ r, (toggle_todo_completion
        (toggle_todo_completion store now1 tid).1 now2 tid).2 = some r
      ∧ r.completed = t.completed ∧ r.id = t.id ∧ r.title = t.title
      ∧ r.due_date = t.due_date ∧ r.tags = t.tags
      ∧ r.created_at = t.created_at := by
  have h1 := toggle_todo_completion_eq store now1 tid t h
  have hfst : (toggle_todo_completion store now1 tid).1 =
      updateFirst store tid (fun x =>
        { x with
            completed := !t.completed
            completed_at := if !t.completed then some now1 else none }) := by
    rw [h1]
  have hfind1 : (updateFirst store tid (fun x =>
      { x with
          completed := !t.completed
          completed_at := if !t.completed then some now1 else none })).find?
        (fun x => x.id == tid) =
      some { t with
              completed := !t.completed
              completed_at := if !t.completed then some now1 else none } := by
    rw [find?_updateFirst store tid (fun x =>
      { x with
          completed := !t.completed
          completed_at := if !t.completed then some now1 else none })
      (fun x => rfl), h]
    rfl
  have h2 := toggle_todo_completion_eq _ now2 tid _ hfind1
  rw [hfst, h2]
  exact ⟨_, rfl, by simp, rfl, rfl, rfl, rfl, rfl⟩

/-- C8 witness: double toggle at a concrete one-task store. -/
theorem claim_C8_witness :
    ([(⟨9, "w8", false, some "2030-01-01", ["k"],
        some "2024-01-01T00:00:00", none⟩ : TodoItem)].find?
          (fun x => x.id == 9) =
        some ⟨9, "w8", false, some "2030-01-01", ["k"],
          some "2024-01-01T00:00:00", none⟩)
    ∧ ∃ r, (toggle_todo_completion
        (toggle_todo_completion
          [(⟨9, "w8", false, some "2030-01-01", ["k"],
            some "2024-01-01T00:00:00", none⟩ : TodoItem)]
          "2024-03-03T00:00:00" 9).1 "2024-04-04T00:00:00" 9).2 = some r
      ∧ r.completed = (⟨9, "w8", false, some "2030-01-01", ["k"],
          some "2024-01-01T00:00:00", none⟩ : TodoItem).completed
      ∧ r.id = 9 ∧ r.title = "w8" ∧ r.due_date = some "2030-01-01"
      ∧ r.tags = ["k"] ∧ r.created_at = some "2024-01-01T00:00:00" :=
  ⟨by decide,
    claim_C8_toggle_twice_identity _ "2024-03-03T00:00:00"
      "2024-04-04T00:00:00" 9 _ (by decide)⟩

/-- C9: for an identifier absent from the store, update, toggle and
delete all produce the "not found" outcome and return the store
unchanged (in particular the task count is unchanged). -/
theorem claim_C9_not_found_unchanged (store : List TodoItem) (now : String)
    (tid : Nat) (u : TodoUpdate) (h : ∀ t ∈ store, t.id ≠ tid) :
    update_todo store now tid u = (store, none)
    ∧ toggle_todo_completion store now tid = (store, none)
    ∧ delete_todo store tid = (store, none) := by
  have hfind : store.find? (fun t => t.id == tid) = none := by
    rw [List.find?_eq_none]
    intro x hx
    simpa using h x hx
  have hnone : ∀ t ∈ store, ¬((t.id == tid) = true) := fun x hx => by
    simpa using h x hx
  refine ⟨?_, ?_, ?_⟩
  · unfold update_todo
    rw [hfind]
  · unfold toggle_todo_completion
    rw [hfind]
  · unfold delete_todo
    rw [List.eraseP_of_forall_not hnone]
    have hany : store.any (fun t => t.id == tid) = false := by
      rw [List.any_eq_false]
      exact hnone
    simp [hany]

/-- C9 witness: the not-found outcomes at a concrete store and an absent
identifier. -/
theorem claim_C9_witness :
    (∀ t ∈ [(⟨1, "only", false, none, [], none, none⟩ : TodoItem)],
        t.id ≠ 42)
    ∧ update_todo [(⟨1, "only", false, none, [], none, none⟩ : TodoItem)]
        "2024-05-05T00:00:00" 42 ⟨"u", true, none, none⟩ =
        ([(⟨1, "only", false, none, [], none, none⟩ : TodoItem)], none)
    ∧ toggle_todo_completion
        [(⟨1, "only", false, none, [], none, none⟩ : TodoItem)]
        "2024-05-05T00:00:00" 42 =
        ([(⟨1, "only", false, none, [], none, none⟩ : TodoItem)], none)
    ∧ delete_todo [(⟨1, "only", false, none, [], none, none⟩ : TodoItem)]
        42 =
        ([(⟨1, "only", false, none, [], none, none⟩ : TodoItem)], none) :=
  ⟨by decide,
    (claim_C9_not_found_unchanged _ "2024-05-05T00:00:00" 42
      ⟨"u", true, none, none⟩ (by decide)).1,
    (claim_C9_not_found_unchanged _ "2024-05-05T00:00:00" 42
      ⟨"u", true, none, none⟩ (by decide)).2.1,
    (claim_C9_not_found_unchanged _ "2024-05-05T00:00:00" 42
      ⟨"u", true, none, none⟩ (by decide)).2.2⟩
